import Mathlib

/-!
Verification development for the JoeAPI MCP server (TypeScript, `src/index.ts`,
first server variant).  The server is glue between an MCP tool registry and two
HTTP backends; the components modelled here are the HTTP request helper
`makeRequest`, the `discover` fan-out aggregator, the `async` SSE streaming
relay, and the `create_action_item` handler.

Modelling conventions:
* JSON values are the inductive `Json` below.  JavaScript numbers are modelled
  as integers (no claim depends on float semantics); `undefined` is modelled as
  `Option.none` where the distinction matters.
* The JavaScript builtins `JSON.stringify` / `JSON.parse` are modelled by the
  executable functions `stringify` / `jsonParse`.  `stringify` renders compact
  JSON (the `null, 2` pretty-printing indentation of the source is abstracted
  away; no claim depends on the exact whitespace of the serialized text).
* The network is a value of type `FetchResult` passed to the model of each
  outbound call: either a response with a status code and a body (which either
  reads as JSON or makes `response.json()` throw), or a transport error
  (the `fetch` promise rejecting).
* Exceptions are modelled with `Except`; a `try { } catch { }` block in the
  source becomes a `match` on the `Except` result.
-/
/-- Model of a JSON value (JavaScript numbers restricted to integers). -/
inductive Json where
  | null : Json
  | bool (b : Bool) : Json
  | num (n : Int) : Json
  | str (s : String) : Json
  | arr (elems : List Json) : Json
  | obj (fields : List (String × Json)) : Json
deriving Repr

mutual
/-- Structural decision procedure for equality of JSON values. -/
def jsonDecEq : (a b : Json) → Decidable (a = b)
  | .null, .null => isTrue rfl
  | .bool x, .bool y =>
    match decEq x y with
    | isTrue h => isTrue (by rw [h])
    | isFalse h => isFalse (by intro hc; cases hc; exact h rfl)
  | .num x, .num y =>
    match decEq x y with
    | isTrue h => isTrue (by rw [h])
    | isFalse h => isFalse (by intro hc; cases hc; exact h rfl)
  | .str x, .str y =>
    match decEq x y with
    | isTrue h => isTrue (by rw [h])
    | isFalse h => isFalse (by intro hc; cases hc; exact h rfl)
  | .arr x, .arr y =>
    match jsonDecEqArr x y with
    | isTrue h => isTrue (by rw [h])
    | isFalse h => isFalse (by intro hc; cases hc; exact h rfl)
  | .obj x, .obj y =>
    match jsonDecEqObj x y with
    | isTrue h => isTrue (by rw [h])
    | isFalse h => isFalse (by intro hc; cases hc; exact h rfl)
  | .null, .bool _ | .null, .num _ | .null, .str _ | .null, .arr _ | .null, .obj _
  | .bool _, .null | .bool _, .num _ | .bool _, .str _ | .bool _, .arr _ | .bool _, .obj _
  | .num _, .null | .num _, .bool _ | .num _, .str _ | .num _, .arr _ | .num _, .obj _
  | .str _, .null | .str _, .bool _ | .str _, .num _ | .str _, .arr _ | .str _, .obj _
  | .arr _, .null | .arr _, .bool _ | .arr _, .num _ | .arr _, .str _ | .arr _, .obj _
  | .obj _, .null | .obj _, .bool _ | .obj _, .num _ | .obj _, .str _ | .obj _, .arr _ =>
    isFalse (by intro hc; cases hc)

/-- Equality decision for lists of JSON values. -/
def jsonDecEqArr : (a b : List Json) → Decidable (a = b)
  | [], [] => isTrue rfl
  | [], _ :: _ => isFalse (by intro hc; cases hc)
  | _ :: _, [] => isFalse (by intro hc; cases hc)
  | x :: xs, y :: ys =>
    match jsonDecEq x y with
    | isFalse h => isFalse (by intro hc; cases hc; exact h rfl)
    | isTrue h1 =>
      match jsonDecEqArr xs ys with
      | isTrue h2 => isTrue (by rw [h1, h2])
      | isFalse h => isFalse (by intro hc; cases hc; exact h rfl)

/-- Equality decision for lists of JSON object members. -/
def jsonDecEqObj : (a b : List (String × Json)) → Decidable (a = b)
  | [], [] => isTrue rfl
  | [], _ :: _ => isFalse (by intro hc; cases hc)
  | _ :: _, [] => isFalse (by intro hc; cases hc)
  | (k1, v1) :: xs, (k2, v2) :: ys =>
    match decEq k1 k2 with
    | isFalse h => isFalse (by intro hc; cases hc; exact h rfl)
    | isTrue hk =>
      match jsonDecEq v1 v2 with
      | isFalse h => isFalse (by intro hc; cases hc; exact h rfl)
      | isTrue hv =>
        match jsonDecEqObj xs ys with
        | isTrue ht => isTrue (by rw [hk, hv, ht])
        | isFalse h => isFalse (by intro hc; cases hc; exact h rfl)
end

instance : DecidableEq Json := jsonDecEq

/-- JavaScript truthiness of a JSON value (`NaN` is not representable here). -/
def jsTruthy : Json → Bool
  | .null => false
  | .bool b => b
  | .num n => n != 0
  | .str s => s != ""
  | .arr _ => true
  | .obj _ => true

/-- Property read `o.k` on a JSON object: first binding wins, `none` models
`undefined`.  Non-objects have no own properties in the fragment we need. -/
def getField : Json → String → Option Json
  | .obj fields, k => fields.lookup k
  | _, _ => none

mutual
/-- JavaScript string coercion `String(v)` of a JSON value. -/
def jsToString : Json → String
  | .null => "null"
  | .bool true => "true"
  | .bool false => "false"
  | .num n => toString n
  | .str s => s
  | .arr elems => jsToStringArr elems
  | .obj _ => "[object Object]"

/-- Comma join of `Array.prototype.toString` (null elements render empty). -/
def jsToStringArr : List Json → String
  | [] => ""
  | [.null] => ""
  | [x] => jsToString x
  | .null :: xs => "," ++ jsToStringArr xs
  | x :: xs => jsToString x ++ "," ++ jsToStringArr xs
end

/-- Hex digit for `\u00XX` escapes. -/
def hexDigit (n : Nat) : Char :=
  if n < 10 then Char.ofNat (48 + n) else Char.ofNat (87 + n)

/-- Escape of one character inside a JSON string literal, as emitted by
`JSON.stringify`. -/
def escapeChar (c : Char) : List Char :=
  if c = '"' then ['\\', '"']
  else if c = '\\' then ['\\', '\\']
  else if c = '\n' then ['\\', 'n']
  else if c = '\t' then ['\\', 't']
  else if c = '\r' then ['\\', 'r']
  else if c.toNat < 32 then
    ['\\', 'u', '0', '0', hexDigit (c.toNat / 16), hexDigit (c.toNat % 16)]
  else [c]

/-- JSON string literal with surrounding quotes. -/
def quoteStr (s : String) : String :=
  ⟨'"' :: (s.data.flatMap escapeChar) ++ ['"']⟩

mutual
/-- Model of `JSON.stringify` (compact rendering, see header). -/
def stringify : Json → String
  | .null => "null"
  | .bool true => "true"
  | .bool false => "false"
  | .num n => toString n
  | .str s => quoteStr s
  | .arr elems => "[" ++ stringifyArr elems ++ "]"
  | .obj fields => "\x7b" ++ stringifyObj fields ++ "\x7d"

/-- Comma-separated rendering of array elements. -/
def stringifyArr : List Json → String
  | [] => ""
  | [x] => stringify x
  | x :: xs => stringify x ++ "," ++ stringifyArr xs

/-- Comma-separated rendering of object members. -/
def stringifyObj : List (String × Json) → String
  | [] => ""
  | [kv] => quoteStr kv.1 ++ ":" ++ stringify kv.2
  | kv :: kvs => quoteStr kv.1 ++ ":" ++ stringify kv.2 ++ "," ++ stringifyObj kvs
end

/-- Whitespace skipping between JSON tokens. -/
def skipWs : List Char → List Char
  | c :: cs => if c = ' ' ∨ c = '\n' ∨ c = '\t' ∨ c = '\r' then skipWs cs else c :: cs
  | [] => []

/-- Decodes one JSON string body (after the opening quote), returning the
decoded characters and the remaining input. -/
def parseStrBody : List Char → Option (List Char × List Char)
  | [] => none
  | '"' :: rest => some ([], rest)
  | '\\' :: 'u' :: h1 :: h2 :: h3 :: h4 :: rest =>
    let hv? (h : Char) : Option Nat :=
      if '0' ≤ h ∧ h ≤ '9' then some (h.toNat - 48)
      else if 'a' ≤ h ∧ h ≤ 'f' then some (h.toNat - 87)
      else if 'A' ≤ h ∧ h ≤ 'F' then some (h.toNat - 55)
      else none
    match hv? h1, hv? h2, hv? h3, hv? h4 with
    | some a, some b, some c, some d =>
      match parseStrBody rest with
      | some (out, rem) => some (Char.ofNat (((a * 16 + b) * 16 + c) * 16 + d) :: out, rem)
      | none => none
    | _, _, _, _ => none
  | '\\' :: e :: rest =>
    let dec? : Option Char :=
      if e = '"' then some '"' else if e = '\\' then some '\\'
      else if e = '/' then some '/' else if e = 'n' then some '\n'
      else if e = 't' then some '\t' else if e = 'r' then some '\r'
      else if e = 'b' then some (Char.ofNat 8) else if e = 'f' then some (Char.ofNat 12)
      else none
    match dec? with
    | some c =>
      match parseStrBody rest with
      | some (out, rem) => some (c :: out, rem)
      | none => none
    | none => none
  | c :: rest =>
    if c = '"' ∨ c = '\\' then none
    else match parseStrBody rest with
      | some (out, rem) => some (c :: out, rem)
      | none => none

/-- Reads a nonempty run of decimal digits. -/
def parseNat : List Char → Option (Nat × List Char)
  | c :: cs =>
    if '0' ≤ c ∧ c ≤ '9' then some (parseNatAux cs (c.toNat - 48))
    else none
  | [] => none
where
  parseNatAux : List Char → Nat → Nat × List Char
  | c :: cs, acc =>
    if '0' ≤ c ∧ c ≤ '9' then parseNatAux cs (acc * 10 + (c.toNat - 48))
    else (acc, c :: cs)
  | [], acc => (acc, [])

mutual
/-- Fuel-indexed model of `JSON.parse` on a token stream: parses one JSON
value, returning it with the unconsumed input. -/
def parseVal : Nat → List Char → Option (Json × List Char)
  | 0, _ => none
  | fuel + 1, cs =>
    match skipWs cs with
    | 'n' :: 'u' :: 'l' :: 'l' :: rest => some (.null, rest)
    | 't' :: 'r' :: 'u' :: 'e' :: rest => some (.bool true, rest)
    | 'f' :: 'a' :: 'l' :: 's' :: 'e' :: rest => some (.bool false, rest)
    | '"' :: rest =>
      match parseStrBody rest with
      | some (out, rem) => some (.str ⟨out⟩, rem)
      | none => none
    | '-' :: rest =>
      match parseNat rest with
      | some (n, rem) => some (.num (-(n : Int)), rem)
      | none => none
    | '[' :: rest =>
      (match skipWs rest with
       | ']' :: rem => some (.arr [], rem)
       | _ => match parseElems fuel (skipWs rest) with
              | some (elems, rem) => some (.arr elems, rem)
              | none => none)
    | '\x7b' :: rest =>
      (match skipWs rest with
       | '\x7d' :: rem => some (.obj [], rem)
       | _ => match parseMembers fuel (skipWs rest) with
              | some (fields, rem) => some (.obj fields, rem)
              | none => none)
    | other =>
      match parseNat other with
      | some (n, rem) => some (.num (n : Int), rem)
      | none => none

/-- Fuel-indexed parsing of nonempty array elements up to the closing bracket. -/
def parseElems : Nat → List Char → Option (List Json × List Char)
  | 0, _ => none
  | fuel + 1, cs =>
    match parseVal fuel cs with
    | none => none
    | some (v, rest) =>
      match skipWs rest with
      | ',' :: rest2 =>
        (match parseElems fuel (skipWs rest2) with
         | some (vs, rem) => some (v :: vs, rem)
         | none => none)
      | ']' :: rem => some ([v], rem)
      | _ => none

/-- Fuel-indexed parsing of nonempty object members up to the closing brace. -/
def parseMembers : Nat → List Char → Option (List (String × Json) × List Char)
  | 0, _ => none
  | fuel + 1, cs =>
    match skipWs cs with
    | '"' :: rest =>
      (match parseStrBody rest with
       | none => none
       | some (key, rest2) =>
         match skipWs rest2 with
         | ':' :: rest3 =>
           (match parseVal fuel (skipWs rest3) with
            | none => none
            | some (v, rest4) =>
              match skipWs rest4 with
              | ',' :: rest5 =>
                (match parseMembers fuel (skipWs rest5) with
                 | some (kvs, rem) => some ((⟨key⟩, v) :: kvs, rem)
                 | none => none)
              | '\x7d' :: rem => some ([(⟨key⟩, v)], rem)
              | _ => none)
         | _ => none)
    | _ => none
end

/-- Model of `JSON.parse`: `none` models the builtin throwing a syntax error. -/
def jsonParse (s : String) : Option Json :=
  match parseVal (s.data.length + 1) s.data with
  | some (j, rest) => if skipWs rest = [] then some j else none
  | none => none

/-!
HTTP Request Helper (`makeRequest`, src/index.ts lines 27-93).

The network behaviour of one outbound call is a `FetchResult`: either the
`fetch` promise rejects (transport error), or a response arrives with a status
code and a body.  `response.json()` is called before the `response.ok` check in
the source; a body that is not valid JSON therefore throws and lands in the
catch block.  `BodyRead.json j` models a body whose `response.json()` yields
`j`; `BodyRead.notJson msg` models `response.json()` rejecting with `msg`.
-/
/-- Result of awaiting `response.json()` on the backend response body. -/
inductive BodyRead where
  | json (j : Json) : BodyRead
  | notJson (errMsg : String) : BodyRead
deriving DecidableEq, Repr

/-- Behaviour of one outbound `fetch` call. -/
inductive FetchResult where
  | response (status : Nat) (body : BodyRead) : FetchResult
  | netError (msg : String) : FetchResult
deriving DecidableEq, Repr

/-- Model of `response.ok`: status in the inclusive range 200-299. -/
def responseOk (status : Nat) : Bool := 200 ≤ status && status < 300

/-- Tool result envelope: the single text content item and the `isError` flag
(`false` models the property being absent, which is falsy in JavaScript). -/
structure Envelope where
  text : String
  isError : Bool
deriving DecidableEq, Repr

/-- Query parameter value: `none` models `undefined`, `some Json.null` models
`null`, other constructors model defined scalar or structured values. -/
abbrev ParamVal := Option Json

/-- Truthiness of a possibly-undefined value. -/
def jsTruthyOpt : Option Json → Bool
  | none => false
  | some v => jsTruthy v

/-- Whether a parameter value is `undefined` or `null` (the code drops these:
`if (value !== undefined && value !== null)`). -/
def isNullish : ParamVal → Bool
  | none => true
  | some .null => true
  | some _ => false

/-- JavaScript string coercion of a possibly-undefined value. -/
def jsToStringOpt : ParamVal → String
  | none => "undefined"
  | some v => jsToString v

/-- Model of the `url.searchParams.append` loop of `makeRequest` (src/index.ts
lines 39-45): keys with `undefined`/`null` values are skipped
(`if (value !== undefined && value !== null)`), other values are appended as
`String(value)`. -/
def buildSearchParams (params : List (String × ParamVal)) : List (String × String) :=
  params.filterMap fun kv =>
    if isNullish kv.2 then none else some (kv.1, jsToStringOpt kv.2)

/-- Model of `String.prototype.startsWith`. -/
def jsStartsWith (s pre : String) : Bool :=
  pre.data.isPrefixOf s.data

/-- Model of `String.prototype.substring(n)` (drop the first `n` characters). -/
def jsDrop (s : String) (n : Nat) : String :=
  ⟨s.data.drop n⟩

/-- JavaScript whitespace for `String.prototype.trim`. -/
def jsIsWs (c : Char) : Bool :=
  c = ' ' || c = '\n' || c = '\t' || c = '\r'

/-- Model of `String.prototype.trim`. -/
def jsTrim (s : String) : String :=
  ⟨((s.data.dropWhile jsIsWs).reverse.dropWhile jsIsWs).reverse⟩

/-- Model of the `safeEndpoint` expression (src/index.ts line 35). -/
def safeEndpoint (endpoint : String) : String :=
  if jsStartsWith endpoint "/" then endpoint else "/" ++ endpoint

/-- The request URL before the query string (src/index.ts line 38):
`${API_BASE_URL}/api/v1${safeEndpoint}`.  URL normalization performed by the
`URL` constructor (percent-encoding of the query string and the like) is kept
structural: the query parameters are carried as the `searchParams` list. -/
structure BuiltRequest where
  url : String
  searchParams : List (String × String)
  body : Option String
deriving DecidableEq, Repr

/-- Model of the request construction in `makeRequest` (src/index.ts lines
34-56): version-prefixed URL, filtered query parameters, and a JSON body
attached only for POST/PUT when `data` is truthy. -/
def buildRequest (baseUrl method endpoint : String) (data : Option Json)
    (params : List (String × ParamVal)) : BuiltRequest :=
  { url := baseUrl ++ "/api/v1" ++ safeEndpoint endpoint
    searchParams := buildSearchParams params
    body :=
      if jsTruthyOpt data && (method == "POST" || method == "PUT") then
        (data.map stringify)
      else none }

/-- Whether the modelled call fails: transport error, unreadable JSON body, or
non-2xx status.  These are exactly the paths on which `makeRequest` produces an
`isError` envelope. -/
def isFailureOutcome : FetchResult → Bool
  | .netError _ => true
  | .response _ (.notJson _) => true
  | .response status (.json _) => !(responseOk status)

/-- The try-block of `makeRequest` (src/index.ts lines 33-80): an `Except`
whose error component models an exception escaping to the catch block
(a rejected `fetch` or a rejected `response.json()`). -/
def makeRequestTry (w : FetchResult) : Except String Envelope :=
  match w with
  | .netError msg => .error msg
  | .response status body =>
    match body with
    | .notJson msg => .error msg
    | .json responseData =>
      if !(responseOk status) then
        .ok { text := "API Error " ++ toString status ++ ": " ++ stringify responseData
              isError := true }
      else
        .ok { text := stringify responseData, isError := false }

/-- Model of `makeRequest` (src/index.ts lines 27-93): the try-block result
with every escaping exception converted by the catch block into a
`Network Error` envelope.  The request construction arguments do not influence
the envelope (only the transmitted `BuiltRequest`), but are kept so that the
model has the shape of the source function. -/
def makeRequest (baseUrl method endpoint : String) (data : Option Json)
    (params : List (String × ParamVal)) (w : FetchResult) : Envelope :=
  let _ : BuiltRequest := buildRequest baseUrl method endpoint data params
  match makeRequestTry w with
  | .ok env => env
  | .error msg => { text := "Network Error: " ++ msg, isError := true }

/-!
Fan-out Aggregator (`discover` tool handler, src/index.ts lines 442-546).

Step 1 resolves a project id: the caller-supplied `projectId` if truthy,
otherwise one `/search` call whose first match is taken.  Step 2 fans out to
six endpoints in parallel and step 3 merges the six envelopes into one JSON
document via `parseResponse`.
-/
/-- JavaScript property access `v.k` where `v` itself may be `undefined`:
reading a property of `undefined`/`null` throws a TypeError (the `Except`
error), other non-objects yield `undefined`. -/
def jsGetProp (v : Option Json) (k : String) : Except String (Option Json) :=
  match v with
  | none => .error ("Cannot read properties of undefined (reading " ++ k ++ ")")
  | some .null => .error ("Cannot read properties of null (reading " ++ k ++ ")")
  | some (.obj fields) => .ok (fields.lookup k)
  | some _ => .ok none

/-- JavaScript `a || b` specialised to a possibly-undefined left operand. -/
def jsOrElse (v : Option Json) (dflt : Json) : Json :=
  match v with
  | none => dflt
  | some j => if jsTruthy j then j else dflt

/-- JavaScript `.length` where defined (arrays and strings); `none` models
`undefined`, so that `projects.length === 0` is false for other values. -/
def jsLength? : Json → Option Nat
  | .arr elems => some elems.length
  | .str s => some s.length
  | _ => none

/-- JavaScript `v[0]`: first array element, first character of a string,
member `"0"` of an object, `undefined` otherwise.  The callers guarantee `v`
is never `null`/`undefined` here, so no TypeError case is needed. -/
def jsIndex0 : Json → Option Json
  | .arr (x :: _) => some x
  | .arr [] => none
  | .str s => if s = "" then none else some (.str (String.singleton s.front))
  | .obj fields => fields.lookup "0"
  | _ => none

/-- Outcome of the body of the try-block in step 1 of `discover` (src/index.ts
lines 465-482): either the zero-candidate case or the extracted
`projects[0].projectId` value. -/
inductive ResolveStep where
  | noMatch : ResolveStep
  | found (pid : Option Json) : ResolveStep
deriving DecidableEq, Repr

/-- Model of the try-block around `JSON.parse(searchResponse.content[0].text)`
(src/index.ts lines 465-493).  The thrown message of a JSON syntax error is
modelled by a fixed string; no claim depends on its wording. -/
def tryResolve (searchText : String) : Except String ResolveStep := do
  let sd ← match jsonParse searchText with
    | none => Except.error "Unexpected token in JSON"
    | some sd => Except.ok sd
  let dataField ← jsGetProp (some sd) "data"
  let projects := jsOrElse dataField (Json.arr [])
  if jsLength? projects = some 0 then
    return .noMatch
  else do
    let pid ← jsGetProp (jsIndex0 projects) "projectId"
    return .found pid

/-- Step 1 of `discover` (src/index.ts lines 451-494): resolves the project
identifier, returning either an early error envelope or the resolved value,
together with the number of outbound calls made. -/
def resolveProjectId (baseUrl query : String) (pid? : Option String)
    (searchWorld : FetchResult) : Except Envelope (Option Json) × Nat :=
  let resolved0 : Option Json := pid?.map Json.str
  if jsTruthyOpt resolved0 then (.ok resolved0, 0)
  else
    let searchResponse := makeRequest baseUrl "GET" "/search" none
      [("q", some (.str query))] searchWorld
    if searchResponse.isError then (.error searchResponse, 1)
    else
      match tryResolve searchResponse.text with
      | .error m =>
        (.error { text := "Error parsing search results: " ++ m, isError := true }, 1)
      | .ok .noMatch =>
        (.error { text := "No project found matching query: \"" ++ query ++ "\"",
                  isError := true }, 1)
      | .ok (.found pid) => (.ok pid, 1)

/-- Behaviour of the backend during one `discover` invocation: the `/search`
call and the six fan-out calls indexed in the order of the `Promise.all` array
(src/index.ts lines 497-511). -/
structure DiscoverWorld where
  search : FetchResult
  fan : Fin 6 → FetchResult

/-- Endpoint of fan-out branch `i`, in the order of the `Promise.all` array:
projects, action items, estimates, schedules, job balances, cost variance. -/
def fanEndpoint : Fin 6 → String
  | 0 => "/projects"
  | 1 => "/action-items"
  | 2 => "/estimates"
  | 3 => "/schedules"
  | 4 => "/job-balances"
  | 5 => "/cost-variance"

/-- Envelope of fan-out branch `i` (one of the six parallel `makeRequest`
calls of src/index.ts lines 505-510). -/
def fanEnv (baseUrl : String) (resolved : Option Json) (w : DiscoverWorld)
    (i : Fin 6) : Envelope :=
  makeRequest baseUrl "GET" (fanEndpoint i) none [("projectId", resolved)] (w.fan i)

/-- Model of `parseResponse` (src/index.ts lines 514-523). -/
def parseResponse (response : Envelope) : Json :=
  if response.isError then .obj [("error", .str response.text)]
  else
    match jsonParse response.text with
    | some j => j
    | none => .obj [("error", .str "Failed to parse response")]

/-- The `structuredData` document of `discover` (src/index.ts lines 525-535).
`JSON.stringify` drops object keys whose value is `undefined`, which is why
the `projectId` key is omitted when the resolved value is `undefined`. -/
def discoverDoc (baseUrl : String) (resolved : Option Json) (w : DiscoverWorld) : Json :=
  .obj
    ((match resolved with
      | some v => [("projectId", v)]
      | none => []) ++
     [("project", parseResponse (fanEnv baseUrl resolved w 0)),
      ("financials", .obj
        [("estimates", parseResponse (fanEnv baseUrl resolved w 2)),
         ("jobBalances", parseResponse (fanEnv baseUrl resolved w 4)),
         ("costVariance", parseResponse (fanEnv baseUrl resolved w 5))]),
      ("schedules", parseResponse (fanEnv baseUrl resolved w 3)),
      ("actionItems", parseResponse (fanEnv baseUrl resolved w 1))])

/-- Model of the `discover` tool handler (src/index.ts lines 451-545),
returning the envelope together with the total number of outbound calls. -/
def discover (baseUrl query : String) (pid? : Option String) (w : DiscoverWorld) :
    Envelope × Nat :=
  match resolveProjectId baseUrl query pid? w.search with
  | (.error e, n) => (e, n)
  | (.ok resolved, n) =>
    ({ text := stringify (discoverDoc baseUrl resolved w), isError := false }, n + 6)

/-- Path of each declared section of the Aggregate Document. -/
def sectionPath : Fin 6 → List String
  | 0 => ["project"]
  | 1 => ["actionItems"]
  | 2 => ["financials", "estimates"]
  | 3 => ["schedules"]
  | 4 => ["financials", "jobBalances"]
  | 5 => ["financials", "costVariance"]

/-- Navigation along a key path in a JSON document. -/
def getPath (j : Json) : List String → Option Json
  | [] => some j
  | k :: ks =>
    match getField j k with
    | some v => getPath v ks
    | none => none

/-!
Streaming Relay (`async` tool handler, src/index.ts lines 552-728).

The SSE read loop accumulates decoded chunks in a string buffer, splits the
buffer on the `\n\n` frame delimiter keeping the trailing partial frame, and
dispatches each complete frame: frames without the `data: ` marker (or with an
unparseable payload) are skipped, `progress` events bump a counter, `complete`
events record their `data` payload, `error` events return immediately.  After
the stream ends, a falsy recorded payload produces the incomplete-stream error
envelope.
-/
/-- Prepends a character to the first piece of a split. -/
def consHead (c : Char) : List (List Char) → List (List Char)
  | [] => [[c]]
  | f :: fs => (c :: f) :: fs

/-- Model of `buffer.split('\n\n')` (src/index.ts line 635): splits on
non-overlapping occurrences of two consecutive newlines, scanning left to
right; the final piece is the remainder without a delimiter. -/
def splitNN : List Char → List (List Char)
  | [] => [[]]
  | [c] => [[c]]
  | c1 :: c2 :: rest =>
    if c1 = '\n' && c2 = '\n' then [] :: splitNN rest
    else consHead c1 (splitNN (c2 :: rest))

/-- Mutable state of the SSE read loop: the progress counter and the recorded
terminal payload (src/index.ts lines 611-612; `none` models `null`). -/
structure SState where
  progressCount : Nat
  finalResult : Option Json
deriving DecidableEq, Repr

/-- Result of processing frames: either the loop continues with an updated
state, or an `error` event returned an envelope early. -/
inductive StepRes where
  | cont (s : SState) : StepRes
  | errEvent (s : SState) (text : String) : StepRes
deriving DecidableEq, Repr

/-- Rendering of a possibly-undefined value inside a template literal. -/
def jsTemplate : Option Json → String
  | none => "undefined"
  | some v => jsToString v

/-- Handling of one complete SSE frame (src/index.ts lines 638-669): skip
frames that are blank or lack the `data: ` marker, parse the JSON payload
after the marker (parse failures are logged and skipped), then dispatch on the
`type` member. -/
def handleLine (s : SState) (line : String) : StepRes :=
  if jsTrim line = "" then .cont s
  else if !(jsStartsWith line "data: ") then .cont s
  else
    match jsonParse (jsDrop line 6) with
    | none => .cont s
    | some eventData =>
      if getField eventData "type" = some (.str "progress") then
        .cont { progressCount := s.progressCount + 1, finalResult := s.finalResult }
      else if getField eventData "type" = some (.str "complete") then
        .cont { progressCount := s.progressCount, finalResult := getField eventData "data" }
      else if getField eventData "type" = some (.str "error") then
        .errEvent s ("Async-agent error: " ++ jsTemplate (getField eventData "message"))
      else .cont s

/-- Processing of a list of complete frames in order, stopping at the first
`error` event. -/
def runFrames (s : SState) : List String → StepRes
  | [] => .cont s
  | f :: fs =>
    match handleLine s f with
    | .errEvent s2 m => .errEvent s2 m
    | .cont s2 => runFrames s2 fs

/-- The complete frames produced by splitting a buffer: everything before the
trailing remainder. -/
def framesOf (cs : List Char) : List String :=
  ((splitNN cs).dropLast).map fun f => (⟨f⟩ : String)

/-- The trailing remainder of a split buffer (`lines.pop()`,
src/index.ts line 636). -/
def restOf (cs : List Char) : List Char :=
  (splitNN cs).getLastD []

/-- Model of the SSE read loop (src/index.ts lines 623-671): per received
chunk, extend the buffer, split out the complete frames, process them, and
keep the remainder; the final buffer is discarded when the stream ends. -/
def consume (buf : List Char) (s : SState) : List String → StepRes
  | [] => .cont s
  | chunk :: rest =>
    let nb := buf ++ chunk.data
    match runFrames s (framesOf nb) with
    | .errEvent s2 m => .errEvent s2 m
    | .cont s2 => consume (restOf nb) s2 rest

/-- The read loop started on an empty buffer and fresh counters. -/
def runStream (chunks : List String) : StepRes :=
  consume [] { progressCount := 0, finalResult := none } chunks

/-- Falsiness of the recorded terminal payload (`if (!finalResult)`,
src/index.ts line 677): `undefined`, `null`, `false`, `0` and the empty
string all count as missing. -/
def jsFalsyOpt : Option Json → Bool
  | none => true
  | some v => !jsTruthy v

/-- The incomplete-stream diagnostic (src/index.ts line 682). -/
def streamEndedMsg (progressCount : Nat) : String :=
  "Stream ended without completion event (received " ++ toString progressCount ++
    " progress events)"

/-- Observable outcome of one `async` tool invocation: the returned envelope,
the progress counter, how many times `reader.cancel()` ran, and how many times
`clearTimeout` ran. -/
structure AsyncOutcome where
  env : Envelope
  progressCount : Nat
  cancelCount : Nat
  clearCount : Nat
deriving DecidableEq, Repr

/-- Model of the `async` tool handler from the point where the SSE stream is
being read (src/index.ts lines 609-697), with an abstract schedule for the
six-minute timer: `chunks` are the chunks delivered before the stream would
end, and `timerFires` states that the timeout elapses after those chunks and
before the backend closes the stream.  When the timer fires its callback runs
`reader.cancel()` once, which makes the pending `reader.read()` resolve with
`done: true`, so the loop exits and the generic post-loop logic runs; the
`finally` block always runs `clearTimeout`, and the `error`-event path runs it
a second time before returning (src/index.ts line 656). -/
def asyncFinish (timerFires : Bool) : StepRes → AsyncOutcome
  | .errEvent s m =>
    { env := { text := m, isError := true }
      progressCount := s.progressCount, cancelCount := 0, clearCount := 2 }
  | .cont s =>
    let cancels := if timerFires then 1 else 0
    if jsFalsyOpt s.finalResult then
      { env := { text := streamEndedMsg s.progressCount, isError := true }
        progressCount := s.progressCount, cancelCount := cancels, clearCount := 1 }
    else
      match s.finalResult with
      | some r =>
        { env := { text := stringify r, isError := false }
          progressCount := s.progressCount, cancelCount := cancels, clearCount := 1 }
      | none =>
        { env := { text := streamEndedMsg s.progressCount, isError := true }
          progressCount := s.progressCount, cancelCount := cancels, clearCount := 1 }

/-- See `asyncFinish` for the post-loop logic applied to the loop result. -/
def asyncToolTimed (chunks : List String) (timerFires : Bool) : AsyncOutcome :=
  asyncFinish timerFires (runStream chunks)

/-- The `async` tool on a stream that the backend closes after delivering
`chunks`, with no timeout in between. -/
def asyncTool (chunks : List String) : AsyncOutcome :=
  asyncToolTimed chunks false

/-- The simulated SSE body of the streaming test scenario. -/
def sseBody : String :=
  "data: \x7b\"type\":\"progress\",\"message\":\"x\",\"progress\":10\x7d\n\ndata: \x7b\"type\":\"complete\",\"data\":\x7b\"ok\":true\x7d\x7d\n\n"

/-- Concatenation of the delivered chunks (the TextDecoder is transparent at
the text level). -/
def joinChunks (chunks : List String) : String :=
  chunks.foldl (fun a b => a ++ b) ""

/-- Whether a frame is handled as a `progress` event. -/
def isProgressFrame (line : String) : Bool :=
  jsTrim line != "" && jsStartsWith line "data: " &&
    match jsonParse (jsDrop line 6) with
    | none => false
    | some e => getField e "type" = some (.str "progress")

/-- Whether a frame is handled as a `complete` event. -/
def isCompleteFrame (line : String) : Bool :=
  jsTrim line != "" && jsStartsWith line "data: " &&
    match jsonParse (jsDrop line 6) with
    | none => false
    | some e => getField e "type" = some (.str "complete")

/-- Whether a frame is handled as an `error` event. -/
def isErrorFrame (line : String) : Bool :=
  jsTrim line != "" && jsStartsWith line "data: " &&
    match jsonParse (jsDrop line 6) with
    | none => false
    | some e => getField e "type" = some (.str "error")

/-!
Action item creation (`create_action_item` handler, src/index.ts lines
256-317): validation of the nested `CostChange`/`ScheduleChange` objects, then
defaulting of `Status` and `Source` before the single POST.
-/
/-- The nested cost change object of the `create_action_item` input schema. -/
structure CostChange where
  Amount : Int
  EstimateCategoryId : String
  RequiresClientApproval : Bool
deriving DecidableEq, Repr

/-- The nested schedule change object of the `create_action_item` input
schema. -/
structure ScheduleChange where
  NoOfDays : Int
  ConstructionTaskId : String
  RequiresClientApproval : Bool
deriving DecidableEq, Repr

/-- Arguments of the `create_action_item` tool after schema validation
(`none` models an omitted optional field). -/
structure ActionItemArgs where
  Title : String
  Description : String
  ProjectId : String
  ActionTypeId : Int
  DueDate : String
  Status : Option Int
  Source : Option Int
  InitialComment : Option String
  CostChange : Option CostChange
  ScheduleChange : Option ScheduleChange
deriving DecidableEq, Repr

/-- The payload transmitted to the backend (src/index.ts lines 310-314):
the arguments with `Status` and `Source` forced by `args.Status ?? 1` and
`args.Source ?? 1`. -/
structure ActionItemPayload where
  Title : String
  Description : String
  ProjectId : String
  ActionTypeId : Int
  DueDate : String
  Status : Int
  Source : Int
  InitialComment : Option String
  CostChange : Option CostChange
  ScheduleChange : Option ScheduleChange
deriving DecidableEq, Repr

/-- The `{ ...args, Status: args.Status ?? 1, Source: args.Source ?? 1 }`
spread. -/
def actionItemPayload (args : ActionItemArgs) : ActionItemPayload :=
  { Title := args.Title
    Description := args.Description
    ProjectId := args.ProjectId
    ActionTypeId := args.ActionTypeId
    DueDate := args.DueDate
    Status := args.Status.getD 1
    Source := args.Source.getD 1
    InitialComment := args.InitialComment
    CostChange := args.CostChange
    ScheduleChange := args.ScheduleChange }

/-- The validation error envelope for a missing `CostChange`
(src/index.ts lines 285-293). -/
def costChangeErrText : String :=
  "Error: CostChange object with Amount, EstimateCategoryId, and RequiresClientApproval is REQUIRED when ActionTypeId=1"

/-- The validation error envelope for a missing `ScheduleChange`
(src/index.ts lines 298-307). -/
def scheduleChangeErrText : String :=
  "Error: ScheduleChange object with NoOfDays, ConstructionTaskId, and RequiresClientApproval is REQUIRED when ActionTypeId=2"

/-- The JSON value of a `CostChange` object. -/
def costChangeJson (c : CostChange) : Json :=
  .obj [("Amount", .num c.Amount), ("EstimateCategoryId", .str c.EstimateCategoryId),
        ("RequiresClientApproval", .bool c.RequiresClientApproval)]

/-- The JSON value of a `ScheduleChange` object. -/
def scheduleChangeJson (c : ScheduleChange) : Json :=
  .obj [("NoOfDays", .num c.NoOfDays), ("ConstructionTaskId", .str c.ConstructionTaskId),
        ("RequiresClientApproval", .bool c.RequiresClientApproval)]

/-- The JSON value of the transmitted payload, in spread order; optional
fields that are `undefined` are dropped, as `JSON.stringify` drops them. -/
def actionItemPayloadJson (p : ActionItemPayload) : Json :=
  .obj
    ([("Title", .str p.Title), ("Description", .str p.Description),
      ("ProjectId", .str p.ProjectId), ("ActionTypeId", .num p.ActionTypeId),
      ("DueDate", .str p.DueDate), ("Status", .num p.Status), ("Source", .num p.Source)] ++
     (match p.InitialComment with
      | some c => [("InitialComment", Json.str c)]
      | none => []) ++
     (match p.CostChange with
      | some c => [("CostChange", costChangeJson c)]
      | none => []) ++
     (match p.ScheduleChange with
      | some c => [("ScheduleChange", scheduleChangeJson c)]
      | none => []))

/-- Model of the `create_action_item` handler (src/index.ts lines 282-316):
the returned envelope together with the list of payloads POSTed to
`/action-items` (empty when validation rejects the call before any request).
The envelope of the performed request is produced by `makeRequest` from the
ambient `FetchResult`. -/
def createActionItem (baseUrl : String) (args : ActionItemArgs) (w : FetchResult) :
    Envelope × List ActionItemPayload :=
  if args.ActionTypeId = 1 ∧ args.CostChange = none then
    ({ text := costChangeErrText, isError := true }, [])
  else if args.ActionTypeId = 2 ∧ args.ScheduleChange = none then
    ({ text := scheduleChangeErrText, isError := true }, [])
  else
    let payload := actionItemPayload args
    (makeRequest baseUrl "POST" "/action-items" (some (actionItemPayloadJson payload)) [] w,
     [payload])

/-!
Claim theorems.  Each claim of the specification gets one theorem (plus a
witness instantiation when the theorem carries hypotheses, and a
counterexample when the claim as stated fails on the code).
-/
/-- Bool test for `sub` occurring as a contiguous substring of `s`, used to
state that a diagnostic message does or does not mention a token. -/
def strContainsAux (sub : List Char) : List Char → Bool
  | [] => sub.isPrefixOf []
  | c :: rest => sub.isPrefixOf (c :: rest) || strContainsAux sub rest

/-- Whether `sub` occurs inside `s`. -/
def strContains (s sub : String) : Bool :=
  strContainsAux sub.data s.data

/-- Delimiter presence: whether the buffer still contains two consecutive
newlines. -/
def hasNN : List Char → Bool
  | [] => false
  | [_] => false
  | c1 :: c2 :: rest => (c1 = '\n' && c2 = '\n') || hasNN (c2 :: rest)

/-- Concatenation of the text of all delivered chunks. -/
def joinData (chunks : List String) : List Char :=
  (chunks.map String.data).flatten

example : jsonParse "\x7b\"a\":1,\"b\":[true,null,\"x\"]\x7d" =
    some (.obj [("a", .num 1), ("b", .arr [.bool true, .null, .str "x"])]) := by
  decide

example : jsonParse (stringify (.obj [("data", .arr [])])) = some (.obj [("data", .arr [])]) := by
  decide

example : jsonParse "not json" = none := by decide

example :
    makeRequest "https://joeapi.fly.dev" "GET" "/clients" none [] (.response 200 (.json (.obj []))) =
      { text := "\x7b\x7d", isError := false } := by
  decide

example :
    makeRequest "https://joeapi.fly.dev" "GET" "/clients" none [] (.response 404 (.json .null)) =
      { text := "API Error 404: null", isError := true } := by
  decide

example : splitNN "a\n\nb\n\n".data = ["a".data, "b".data, []] := by decide

example : splitNN "a\n\n\nb".data = ["a".data, "\nb".data] := by decide

example :
    asyncTool [sseBody] =
      { env := { text := "\x7b\"ok\":true\x7d", isError := false },
        progressCount := 1, cancelCount := 0, clearCount := 1 } := by
  decide

example : strContains "API Error 500: x" "500" = true := by decide

example : strContains "Network Error: boom" "500" = false := by decide

/-- Claim C1, counterexample: a non-2xx response whose body is not valid JSON
does not produce an envelope carrying the status code.  `response.json()` is
awaited before the `response.ok` check, so the rejected parse lands in the
catch block and the envelope reads `Network Error: ...` with no trace of the
status 500. -/
theorem makeRequest_nonJson_drops_status :
    (makeRequest "https://joeapi.fly.dev" "GET" "/clients" none []
        (.response 500 (.notJson "Unexpected end of JSON input"))).isError = true ∧
    (makeRequest "https://joeapi.fly.dev" "GET" "/clients" none []
        (.response 500 (.notJson "Unexpected end of JSON input"))).text =
      "Network Error: Unexpected end of JSON input" ∧
    strContains
      (makeRequest "https://joeapi.fly.dev" "GET" "/clients" none []
        (.response 500 (.notJson "Unexpected end of JSON input"))).text "500" = false := by
  decide

/-- Claim C1 (amended): for every non-2xx backend response whose body is valid
JSON, `makeRequest` returns an `Err` envelope whose message embeds the
original status code unchanged; when the body is not valid JSON the result is
still an `Err` envelope, but a `Network Error` one built from the parse
failure instead of the status line. -/
theorem makeRequest_non2xx_status (baseUrl method endpoint : String)
    (data : Option Json) (params : List (String × ParamVal)) (status : Nat)
    (j : Json) (m : String) (h : responseOk status = false) :
    makeRequest baseUrl method endpoint data params (.response status (.json j)) =
      { text := "API Error " ++ toString status ++ ": " ++ stringify j, isError := true } ∧
    makeRequest baseUrl method endpoint data params (.response status (.notJson m)) =
      { text := "Network Error: " ++ m, isError := true } := by
  constructor <;> simp [makeRequest, makeRequestTry, h]

/-- Witness for C1 (amended) at a concrete 404 response. -/
theorem makeRequest_non2xx_status_witness :
    makeRequest "https://joeapi.fly.dev" "GET" "/clients" none []
        (.response 404 (.json .null)) =
      { text := "API Error 404: null", isError := true } := by
  have h := makeRequest_non2xx_status "https://joeapi.fly.dev" "GET" "/clients"
    none [] 404 .null "m" (by decide)
  exact h.1

/-- Claim C2: `makeRequest` is a total function into envelopes (the model
returns the catch-block envelope whenever the try-block raises), its envelope
is flagged `isError` exactly on the failure outcomes (transport error,
unreadable body, non-2xx status), and every failure produces one of the two
diagnostic message shapes. -/
theorem makeRequest_never_throws (baseUrl method endpoint : String)
    (data : Option Json) (params : List (String × ParamVal)) (w : FetchResult) :
    (makeRequest baseUrl method endpoint data params w).isError = isFailureOutcome w ∧
    (isFailureOutcome w = true →
      ∃ m : String,
        (makeRequest baseUrl method endpoint data params w).text = "Network Error: " ++ m ∨
        (makeRequest baseUrl method endpoint data params w).text = "API Error " ++ m) := by
  constructor
  · cases w with
    | netError msg => simp [makeRequest, makeRequestTry, isFailureOutcome]
    | response status body =>
      cases body with
      | notJson m => simp [makeRequest, makeRequestTry, isFailureOutcome]
      | json j =>
        by_cases h : responseOk status = true
        · simp [makeRequest, makeRequestTry, isFailureOutcome, h]
        · simp only [Bool.not_eq_true] at h
          simp [makeRequest, makeRequestTry, isFailureOutcome, h]
  · intro hfail
    cases w with
    | netError msg =>
      exact ⟨msg, Or.inl (by simp [makeRequest, makeRequestTry])⟩
    | response status body =>
      cases body with
      | notJson m =>
        exact ⟨m, Or.inl (by simp [makeRequest, makeRequestTry])⟩
      | json j =>
        by_cases h : responseOk status = true
        · simp [isFailureOutcome, h] at hfail
        · simp only [Bool.not_eq_true] at h
          refine ⟨toString status ++ ": " ++ stringify j, Or.inr ?_⟩
          simp [makeRequest, makeRequestTry, h, String.append_assoc]

/-- Witness for C2 at a concrete transport error. -/
theorem makeRequest_never_throws_witness :
    (makeRequest "https://joeapi.fly.dev" "GET" "/clients" none []
        (.netError "fetch failed")).isError = isFailureOutcome (.netError "fetch failed") := by
  have h := makeRequest_never_throws "https://joeapi.fly.dev" "GET" "/clients" none []
    (.netError "fetch failed")
  exact h.1

/-- Claim C3: a key appears in the constructed query parameters exactly when
the input mapping binds it to a value that is neither `undefined` nor `null`,
and the key list of the constructed query is precisely the input key list with
the nullish-valued keys dropped (never serialized as empty strings). -/
theorem buildSearchParams_keys (params : List (String × ParamVal)) (k : String) :
    (k ∈ (buildSearchParams params).map Prod.fst ↔
      ∃ v : Json, (k, some v) ∈ params ∧ v ≠ .null) ∧
    (buildSearchParams params).map Prod.fst =
      (params.filter fun kv => !(isNullish kv.2)).map Prod.fst := by
  constructor
  · simp only [buildSearchParams, List.map_filterMap, List.mem_filterMap]
    constructor
    · rintro ⟨⟨k0, v0⟩, hmem, hf⟩
      by_cases hn : isNullish v0 = true
      · simp [hn] at hf
      · simp only [Bool.not_eq_true] at hn
        have hk : k0 = k := by simpa [hn] using hf
        subst hk
        cases v0 with
        | none => simp [isNullish] at hn
        | some j =>
          refine ⟨j, hmem, ?_⟩
          intro hj
          rw [hj] at hn
          simp [isNullish] at hn
    · rintro ⟨v, hmem, hvn⟩
      refine ⟨(k, some v), hmem, ?_⟩
      have hn : isNullish (some v) = false := by
        cases v with
        | null => exact absurd rfl hvn
        | bool b => rfl
        | num n => rfl
        | str s => rfl
        | arr xs => rfl
        | obj fs => rfl
      simp [hn]
  · induction params with
    | nil => rfl
    | cons hd tl ih =>
      by_cases hn : isNullish hd.2 = true
      · simpa [buildSearchParams, List.filterMap_cons, List.filter_cons, hn] using ih
      · simp only [Bool.not_eq_true] at hn
        simpa [buildSearchParams, List.filterMap_cons, List.filter_cons, hn] using ih

/-- Claim C4: the transmitted URL is always the configured base URL followed
by the fixed `/api/v1` segment followed by the endpoint, with a leading slash
prepended to the endpoint exactly when it lacks one. -/
theorem buildRequest_api_version_segment (baseUrl method endpoint : String)
    (data : Option Json) (params : List (String × ParamVal)) :
    (jsStartsWith endpoint "/" = true →
      (buildRequest baseUrl method endpoint data params).url =
        baseUrl ++ "/api/v1" ++ endpoint) ∧
    (jsStartsWith endpoint "/" = false →
      (buildRequest baseUrl method endpoint data params).url =
        baseUrl ++ "/api/v1" ++ ("/" ++ endpoint)) := by
  constructor <;> intro h <;> simp [buildRequest, safeEndpoint, h]

/-- Witness for C4 at endpoints with and without the leading slash. -/
theorem buildRequest_api_version_segment_witness :
    (buildRequest "https://joeapi.fly.dev" "GET" "/clients" none []).url =
      "https://joeapi.fly.dev" ++ "/api/v1" ++ "/clients" ∧
    (buildRequest "https://joeapi.fly.dev" "GET" "clients" none []).url =
      "https://joeapi.fly.dev" ++ "/api/v1" ++ ("/" ++ "clients") := by
  constructor
  · exact (buildRequest_api_version_segment "https://joeapi.fly.dev" "GET" "/clients"
      none []).1 (by decide)
  · exact (buildRequest_api_version_segment "https://joeapi.fly.dev" "GET" "clients"
      none []).2 (by decide)

/-- Claim C10: `create_action_item` rejects `ActionTypeId = 1` without a
`CostChange` (naming `CostChange` in the error) and `ActionTypeId = 2` without
a `ScheduleChange` (naming `ScheduleChange`), in both cases performing zero
outbound requests; every invocation that passes validation POSTs exactly one
payload, whose `Status` and `Source` default to 1 when omitted. -/
theorem createActionItem_validation (baseUrl : String) (args : ActionItemArgs)
    (w : FetchResult) :
    (args.ActionTypeId = 1 → args.CostChange = none →
      createActionItem baseUrl args w =
        ({ text := costChangeErrText, isError := true }, []) ∧
      strContains costChangeErrText "CostChange" = true) ∧
    (args.ActionTypeId = 2 → args.ScheduleChange = none →
      createActionItem baseUrl args w =
        ({ text := scheduleChangeErrText, isError := true }, []) ∧
      strContains scheduleChangeErrText "ScheduleChange" = true) ∧
    (¬(args.ActionTypeId = 1 ∧ args.CostChange = none) →
     ¬(args.ActionTypeId = 2 ∧ args.ScheduleChange = none) →
      (createActionItem baseUrl args w).2 = [actionItemPayload args] ∧
      (args.Status = none → (actionItemPayload args).Status = 1) ∧
      (args.Source = none → (actionItemPayload args).Source = 1)) := by
  refine ⟨?_, ?_, ?_⟩
  · intro h1 h2
    constructor
    · simp [createActionItem, h1, h2]
    · decide
  · intro h1 h2
    constructor
    · have hno1 : ¬(args.ActionTypeId = 1 ∧ args.CostChange = none) := by
        rintro ⟨ha, _⟩
        rw [ha] at h1
        norm_num at h1
      simp [createActionItem, hno1, h1, h2]
    · decide
  · intro h1 h2
    refine ⟨by simp [createActionItem, h1, h2], ?_, ?_⟩
    · intro hs
      simp [actionItemPayload, hs]
    · intro hs
      simp [actionItemPayload, hs]

/-- Witness for C10: a cost change without its nested object is rejected with
zero requests, a schedule change without its nested object likewise, and a
valid generic item with omitted `Status`/`Source` is transmitted with both
defaulted to 1. -/
theorem createActionItem_validation_witness :
    (createActionItem "https://joeapi.fly.dev"
        { Title := "t", Description := "d", ProjectId := "p", ActionTypeId := 1,
          DueDate := "2025-01-01", Status := none, Source := none,
          InitialComment := none, CostChange := none, ScheduleChange := none }
        (.netError "x") =
      ({ text := costChangeErrText, isError := true }, [])) ∧
    (createActionItem "https://joeapi.fly.dev"
        { Title := "t", Description := "d", ProjectId := "p", ActionTypeId := 2,
          DueDate := "2025-01-01", Status := none, Source := none,
          InitialComment := none, CostChange := none, ScheduleChange := none }
        (.netError "x") =
      ({ text := scheduleChangeErrText, isError := true }, [])) ∧
    ((createActionItem "https://joeapi.fly.dev"
        { Title := "t", Description := "d", ProjectId := "p", ActionTypeId := 3,
          DueDate := "2025-01-01", Status := none, Source := none,
          InitialComment := none, CostChange := none, ScheduleChange := none }
        (.response 200 (.json .null))).2 =
      [actionItemPayload
        { Title := "t", Description := "d", ProjectId := "p", ActionTypeId := 3,
          DueDate := "2025-01-01", Status := none, Source := none,
          InitialComment := none, CostChange := none, ScheduleChange := none }] ∧
      (actionItemPayload
        { Title := "t", Description := "d", ProjectId := "p", ActionTypeId := 3,
          DueDate := "2025-01-01", Status := none, Source := none,
          InitialComment := none, CostChange := none, ScheduleChange := none }).Status = 1 ∧
      (actionItemPayload
        { Title := "t", Description := "d", ProjectId := "p", ActionTypeId := 3,
          DueDate := "2025-01-01", Status := none, Source := none,
          InitialComment := none, CostChange := none, ScheduleChange := none }).Source = 1) := by
  refine ⟨?_, ?_, ?_, ?_, ?_⟩
  · exact ((createActionItem_validation "https://joeapi.fly.dev" _ (.netError "x")).1
      rfl rfl).1
  · exact ((createActionItem_validation "https://joeapi.fly.dev" _ (.netError "x")).2.1
      rfl rfl).1
  · exact ((createActionItem_validation "https://joeapi.fly.dev" _
      (.response 200 (.json .null))).2.2 (by decide) (by decide)).1
  · exact ((createActionItem_validation "https://joeapi.fly.dev" _
      (.response 200 (.json .null))).2.2 (by decide) (by decide)).2.1 rfl
  · exact ((createActionItem_validation "https://joeapi.fly.dev" _
      (.response 200 (.json .null))).2.2 (by decide) (by decide)).2.2 rfl

theorem splitNN_ne_nil (x : List Char) : splitNN x ≠ [] := by
  induction x using splitNN.induct with
  | case1 => simp [splitNN]
  | case2 c => simp [splitNN]
  | case3 c1 c2 rest h ih => simp [splitNN, h]
  | case4 c1 c2 rest h ih =>
    simp only [splitNN, h]
    cases hs : splitNN (c2 :: rest) with
    | nil => exact absurd hs ih
    | cons f fs => simp [consHead, h]

theorem splitNN_of_not_hasNN (x : List Char) (h : hasNN x = false) : splitNN x = [x] := by
  induction x using splitNN.induct with
  | case1 => rfl
  | case2 c => rfl
  | case3 c1 c2 rest hd ih => simp [hasNN, hd] at h
  | case4 c1 c2 rest hd ih =>
    simp only [hasNN, Bool.or_eq_false_iff] at h
    simp [splitNN, hd, ih h.2, consHead]

theorem splitNN_singleton (x f : List Char) (h : splitNN x = [f]) : f = x := by
  induction x using splitNN.induct generalizing f with
  | case1 => simp [splitNN] at h; exact h
  | case2 c => simp [splitNN] at h; exact h.symm
  | case3 c1 c2 rest hd ih =>
    simp only [splitNN, hd] at h
    have := splitNN_ne_nil rest
    cases hs : splitNN rest with
    | nil => exact absurd hs this
    | cons g gs => rw [hs] at h; simp at h
  | case4 c1 c2 rest hd ih =>
    simp only [splitNN, hd] at h
    cases hs : splitNN (c2 :: rest) with
    | nil => exact absurd hs (splitNN_ne_nil _)
    | cons g gs =>
      rw [hs] at h
      simp only [consHead] at h
      cases gs with
      | nil =>
        have hh : f = c1 :: g := by
          simpa using congrArg (fun l => l.headD []) h.symm
        have hg : g = c2 :: rest := ih g hs
        rw [hh, hg]
      | cons g2 gs2 =>
        simp at h

theorem hasNN_getLastD (x : List Char) : hasNN ((splitNN x).getLastD []) = false := by
  induction x using splitNN.induct with
  | case1 => rfl
  | case2 c => rfl
  | case3 c1 c2 rest hd ih =>
    simp only [splitNN, hd]
    cases hs : splitNN rest with
    | nil => exact absurd hs (splitNN_ne_nil _)
    | cons g gs =>
      rw [hs] at ih
      simpa [List.getLastD_cons] using ih
  | case4 c1 c2 rest hd ih =>
    simp only [splitNN, hd]
    cases hs : splitNN (c2 :: rest) with
    | nil => exact absurd hs (splitNN_ne_nil _)
    | cons g gs =>
      rw [hs] at ih
      cases gs with
      | nil =>
        have hg : g = c2 :: rest := splitNN_singleton _ _ hs
        simp only [consHead, List.getLastD_cons, List.getLastD_nil] at *
        subst hg
        simp only [hasNN, Bool.or_eq_false_iff]
        constructor
        · simpa using hd
        · exact ih
      | cons g2 gs2 =>
        simpa [consHead, List.getLastD_cons] using ih

theorem hasNN_restOf (x : List Char) : hasNN (restOf x) = false :=
  hasNN_getLastD x

theorem getLastD_append_right (a b : List (List Char)) (hb : b ≠ []) :
    (a ++ b).getLastD [] = b.getLastD [] := by
  rw [List.getLastD_eq_getLast?, List.getLastD_eq_getLast?,
    List.getLast?_append_of_ne_nil a hb]

theorem dropLast_append_right (a b : List (List Char)) (hb : b ≠ []) :
    (a ++ b).dropLast = a ++ b.dropLast := by
  induction a with
  | nil => rfl
  | cons x xs ih =>
    cases hx : xs ++ b with
    | nil => exact absurd (List.append_eq_nil.mp hx).2 hb
    | cons y ys =>
      simp only [List.cons_append, hx, List.dropLast_cons₂, List.cons.injEq, true_and]
      rw [← hx, ih]

theorem splitNN_delim (rest : List Char) :
    splitNN ('\n' :: '\n' :: rest) = [] :: splitNN rest := by
  simp [splitNN]

theorem splitNN_nodelim (c1 c2 : Char) (rest : List Char)
    (h : (c1 = '\n' && c2 = '\n') = false) :
    splitNN (c1 :: c2 :: rest) = consHead c1 (splitNN (c2 :: rest)) := by
  simp [splitNN, h]

theorem dropLast_cons_ne_nil (a : List Char) (l : List (List Char)) (h : l ≠ []) :
    (a :: l).dropLast = a :: l.dropLast := by
  cases l with
  | nil => exact absurd rfl h
  | cons b t => rw [List.dropLast_cons₂]

theorem splitNN_append (x c : List Char) :
    splitNN (x ++ c) =
      (splitNN x).dropLast ++ splitNN ((splitNN x).getLastD [] ++ c) := by
  induction x using splitNN.induct with
  | case1 => rfl
  | case2 a => rfl
  | case3 c1 c2 rest hd ih =>
    have hc : c1 = '\n' ∧ c2 = '\n' := by simpa using hd
    obtain ⟨rfl, rfl⟩ := hc
    have hne := splitNN_ne_nil rest
    rw [show (('\n' :: '\n' :: rest : List Char) ++ c) = '\n' :: '\n' :: (rest ++ c) by simp,
      splitNN_delim, splitNN_delim, ih, dropLast_cons_ne_nil _ _ hne, List.getLastD_cons]
    simp
  | case4 c1 c2 rest hd ih =>
    have hd2 : (c1 = '\n' && c2 = '\n') = false := by simpa using hd
    have hstep : splitNN (c1 :: c2 :: (rest ++ c)) =
        consHead c1 (splitNN (c2 :: (rest ++ c))) := splitNN_nodelim c1 c2 (rest ++ c) hd2
    cases hs : splitNN (c2 :: rest) with
    | nil => exact absurd hs (splitNN_ne_nil _)
    | cons g gs =>
      rw [hs] at ih
      rw [show ((c1 :: c2 :: rest : List Char) ++ c) = c1 :: c2 :: (rest ++ c) by simp,
        hstep, splitNN_nodelim c1 c2 rest hd2, hs]
      rw [show (c2 :: (rest ++ c) : List Char) = (c2 :: rest) ++ c by simp, ih]
      cases gs with
      | nil =>
        have hg : g = c2 :: rest := splitNN_singleton _ _ hs
        subst hg
        simp only [consHead, List.dropLast_single, List.nil_append,
          List.getLastD_cons, List.getLastD_nil]
        rw [show ((c1 :: c2 :: rest : List Char) ++ c) = c1 :: c2 :: (rest ++ c) by simp,
          hstep]
        rw [show (c2 :: (rest ++ c) : List Char) = (c2 :: rest) ++ c by simp, ih]
        simp [consHead]
      | cons g2 gs2 =>
        have hne2 : (g2 :: gs2 : List (List Char)) ≠ [] := by simp
        rw [dropLast_cons_ne_nil _ _ hne2, List.getLastD_cons, List.getLastD_cons]
        simp only [consHead]
        rw [dropLast_cons_ne_nil _ _ hne2, List.getLastD_cons, List.getLastD_cons]
        simp

theorem runFrames_append (s : SState) (a b : List String) :
    runFrames s (a ++ b) =
      match runFrames s a with
      | .errEvent s2 m => .errEvent s2 m
      | .cont s2 => runFrames s2 b := by
  induction a generalizing s with
  | nil => simp [runFrames]
  | cons f fs ih =>
    simp only [List.cons_append, runFrames]
    cases handleLine s f with
    | errEvent s2 m => rfl
    | cont s2 => exact ih s2

theorem consume_eq_runFrames (chunks : List String) (buf : List Char) (s : SState)
    (hbuf : hasNN buf = false) :
    consume buf s chunks = runFrames s (framesOf (buf ++ joinData chunks)) := by
  induction chunks generalizing buf s with
  | nil =>
    simp [consume, joinData, framesOf, splitNN_of_not_hasNN _ hbuf, runFrames]
  | cons chunk rest ih =>
    have hassoc : buf ++ joinData (chunk :: rest) =
        (buf ++ chunk.data) ++ joinData rest := by
      simp [joinData]
    have h2 : framesOf ((buf ++ chunk.data) ++ joinData rest) =
        framesOf (buf ++ chunk.data) ++
          framesOf (restOf (buf ++ chunk.data) ++ joinData rest) := by
      unfold framesOf restOf
      rw [splitNN_append, dropLast_append_right _ _ (splitNN_ne_nil _), List.map_append]
    rw [hassoc, h2, runFrames_append]
    simp only [consume]
    cases hr : runFrames s (framesOf (buf ++ chunk.data)) with
    | errEvent s2 m => rfl
    | cont s2 => exact ih _ s2 (hasNN_restOf _)

theorem joinChunks_data (chunks : List String) :
    (joinChunks chunks).data = joinData chunks := by
  suffices h : ∀ a : String,
      (chunks.foldl (fun x y => x ++ y) a).data = a.data ++ joinData chunks by
    simpa [joinChunks] using h ""
  induction chunks with
  | nil => intro a; simp [joinData]
  | cons x xs ih =>
    intro a
    simp [joinData, List.flatten_cons, ih, String.data_append]

theorem runStream_eq (chunks : List String) :
    runStream chunks =
      runFrames { progressCount := 0, finalResult := none }
        (framesOf (joinChunks chunks).data) := by
  rw [runStream, consume_eq_runFrames chunks [] _ rfl, List.nil_append, joinChunks_data]

theorem handleLine_not_terminal (s : SState) (f : String)
    (hc : isCompleteFrame f = false) (he : isErrorFrame f = false) :
    handleLine s f =
      .cont { progressCount := s.progressCount + (if isProgressFrame f then 1 else 0),
              finalResult := s.finalResult } := by
  by_cases h1 : jsTrim f = ""
  · simp [handleLine, isProgressFrame, h1]
  · by_cases h2 : jsStartsWith f "data: " = true
    · cases hp : jsonParse (jsDrop f 6) with
      | none => simp [handleLine, isProgressFrame, h1, h2, hp]
      | some e =>
        by_cases ht : getField e "type" = some (.str "progress")
        · simp [handleLine, isProgressFrame, h1, h2, hp, ht]
        · simp only [isCompleteFrame, h1, h2, hp, Bool.and_eq_false_iff] at hc
          simp only [isErrorFrame, h1, h2, hp, Bool.and_eq_false_iff] at he
          have hc2 : ¬(getField e "type" = some (.str "complete")) := by
            rcases hc with hc | hc
            · rcases hc with hc | hc
              · simp [bne] at hc
                exact absurd hc h1
              · simp [h2] at hc
            · simpa using hc
          have he2 : ¬(getField e "type" = some (.str "error")) := by
            rcases he with he | he
            · rcases he with he | he
              · simp [bne] at he
                exact absurd he h1
              · simp [h2] at he
            · simpa using he
          simp [handleLine, isProgressFrame, h1, h2, hp, ht, hc2, he2]
    · simp only [Bool.not_eq_true] at h2
      simp [handleLine, isProgressFrame, h1, h2]

theorem runFrames_no_terminal (fs : List String) (s : SState)
    (h : ∀ f ∈ fs, isCompleteFrame f = false ∧ isErrorFrame f = false) :
    runFrames s fs =
      .cont { progressCount := s.progressCount + (fs.countP fun f => isProgressFrame f),
              finalResult := s.finalResult } := by
  induction fs generalizing s with
  | nil => simp [runFrames, List.countP_nil]
  | cons f fs2 ih =>
    have hf := h f (by simp)
    have h1 : runFrames s (f :: fs2) =
        runFrames { progressCount := s.progressCount + (if isProgressFrame f then 1 else 0),
                    finalResult := s.finalResult } fs2 := by
      simp only [runFrames]
      rw [handleLine_not_terminal s f hf.1 hf.2]
    rw [h1, ih _ (fun g hg => h g (by simp [hg]))]
    simp only [StepRes.cont.injEq, SState.mk.injEq, List.countP_cons, and_true]
    by_cases hpf : isProgressFrame f = true
    all_goals simp [hpf]
    all_goals omega

/-- Claim C7: consuming the simulated SSE body, delivered as any chunk
sequence whose concatenation is the body, yields a success envelope whose
payload is the parsed `data` object of the `complete` event, with exactly one
recorded progress event. -/
theorem asyncTool_sse_scenario (chunks : List String)
    (h : joinChunks chunks = sseBody) :
    asyncTool chunks =
      { env := { text := stringify (Json.obj [("ok", Json.bool true)]), isError := false },
        progressCount := 1, cancelCount := 0, clearCount := 1 } := by
  have hs : runStream chunks =
      runFrames { progressCount := 0, finalResult := none } (framesOf sseBody.data) := by
    rw [runStream_eq, h]
  unfold asyncTool asyncToolTimed
  rw [hs]
  decide

/-- Witness for C7: the body delivered in three chunks, split inside the frame
delimiter and inside a JSON token. -/
theorem asyncTool_sse_scenario_witness :
    asyncTool
      ["data: \x7b\"type\":\"progress\",\"message\":\"x\",\"progress\":10\x7d\n",
       "\ndata: \x7b\"type\":\"complete\",\"da",
       "ta\":\x7b\"ok\":true\x7d\x7d\n\n"] =
      { env := { text := stringify (Json.obj [("ok", Json.bool true)]), isError := false },
        progressCount := 1, cancelCount := 0, clearCount := 1 } := by
  exact asyncTool_sse_scenario _ (by decide)

/-- Claim C8: for every stream that ends without any `complete` or `error`
event among its complete frames, the relay returns an `Err` envelope whose
message states the number of `progress` events observed. -/
theorem asyncTool_incomplete_stream (chunks : List String)
    (h : ∀ f ∈ framesOf (joinChunks chunks).data,
      isCompleteFrame f = false ∧ isErrorFrame f = false) :
    asyncTool chunks =
      { env :=
          { text :=
              streamEndedMsg ((framesOf (joinChunks chunks).data).countP
                (fun f => isProgressFrame f)),
            isError := true },
        progressCount :=
          (framesOf (joinChunks chunks).data).countP (fun f => isProgressFrame f),
        cancelCount := 0, clearCount := 1 } := by
  unfold asyncTool asyncToolTimed
  rw [runStream_eq, runFrames_no_terminal _ _ h]
  simp [asyncFinish, jsFalsyOpt]

/-- Witness for C8: a stream consisting of a single progress event. -/
theorem asyncTool_incomplete_stream_witness :
    asyncTool ["data: \x7b\"type\":\"progress\",\"message\":\"x\",\"progress\":10\x7d\n\n"] =
      { env := { text := streamEndedMsg 1, isError := true },
        progressCount := 1, cancelCount := 0, clearCount := 1 } := by
  have h := asyncTool_incomplete_stream
    ["data: \x7b\"type\":\"progress\",\"message\":\"x\",\"progress\":10\x7d\n\n"]
    (by decide)
  simpa using h

/-- Claim C9, counterexample: when the timeout fires on a stream with no
terminal event, the reader is cancelled and an `Err` envelope is returned,
but its message is the generic incomplete-stream diagnostic and does not
attribute the failure to a timeout (the timer callback only cancels the
reader, making `read()` resolve `done`, so the post-loop branch runs; no
`AbortError` is raised since this handler uses no `AbortController`). -/
theorem asyncTimeout_not_attributed :
    (asyncToolTimed [] true).env.isError = true ∧
    (asyncToolTimed [] true).cancelCount = 1 ∧
    (asyncToolTimed [] true).env.text =
      "Stream ended without completion event (received 0 progress events)" ∧
    strContains (asyncToolTimed [] true).env.text "timeout" = false ∧
    strContains (asyncToolTimed [] true).env.text "Timeout" = false := by
  decide

/-- Claim C9 (amended): the timer is cleared at least once on every exit path
(the `finally` block), and when the timeout fires before any terminal event
the reader is cancelled exactly once and the call returns an `Err` envelope —
the generic incomplete-stream one carrying the progress count, not a
timeout-specific message. -/
theorem asyncToolTimed_timeout_behaviour (chunks : List String) (tf : Bool) :
    1 ≤ (asyncToolTimed chunks tf).clearCount ∧
    ((∀ f ∈ framesOf (joinChunks chunks).data,
        isCompleteFrame f = false ∧ isErrorFrame f = false) →
      (asyncToolTimed chunks true).cancelCount = 1 ∧
      (asyncToolTimed chunks true).env =
        { text :=
            streamEndedMsg ((framesOf (joinChunks chunks).data).countP
              (fun f => isProgressFrame f)),
          isError := true }) := by
  constructor
  · unfold asyncToolTimed
    generalize runStream chunks = res
    cases res with
    | errEvent s2 m => simp [asyncFinish]
    | cont s2 =>
      simp only [asyncFinish]
      by_cases hf : jsFalsyOpt s2.finalResult = true
      · simp [hf]
      · simp only [Bool.not_eq_true] at hf
        cases hr : s2.finalResult with
        | none =>
          rw [hr] at hf
          simp [jsFalsyOpt] at hf
        | some r =>
          rw [hr] at hf
          simp only [hf, Bool.false_eq_true, if_false]
          exact Nat.le_refl 1
  · intro h
    unfold asyncToolTimed
    rw [runStream_eq, runFrames_no_terminal _ _ h]
    simp [asyncFinish, jsFalsyOpt]

/-- Witness for C9 (amended) on the empty stream with the timer firing. -/
theorem asyncToolTimed_timeout_behaviour_witness :
    1 ≤ (asyncToolTimed [] true).clearCount ∧
    (asyncToolTimed [] true).cancelCount = 1 := by
  have h := asyncToolTimed_timeout_behaviour [] true
  exact ⟨h.1, (h.2 (by decide)).1⟩

theorem parseResponse_ok (r : Envelope) (j : Json) (h1 : r.isError = false)
    (h2 : jsonParse r.text = some j) : parseResponse r = j := by
  simp [parseResponse, h1, h2]

theorem parseResponse_err (r : Envelope) (h : r.isError = true) :
    parseResponse r = .obj [("error", .str r.text)] := by
  simp [parseResponse, h]

theorem getPath_discoverDoc (baseUrl : String) (resolved : Option Json)
    (w : DiscoverWorld) (i : Fin 6) :
    getPath (discoverDoc baseUrl resolved w) (sectionPath i) =
      some (parseResponse (fanEnv baseUrl resolved w i)) := by
  fin_cases i <;> cases resolved <;> rfl

/-- Claim C5: whenever the resolution step of `discover` succeeds and exactly
one of the six fan-out branches fails, the call returns a success envelope
(no `isError` flag) rendering the Aggregate Document, all six declared
sections are present, the five healthy ones hold the parsed JSON body of
their branch, and the failing one holds the `error` placeholder built from
that branch's envelope text; one branch's failure never removes another
section. -/
theorem discover_partial_failure (baseUrl query : String) (pid? : Option String)
    (w : DiscoverWorld) (resolved : Option Json) (n : Nat) (k : Fin 6)
    (good : Fin 6 → Json)
    (hres : resolveProjectId baseUrl query pid? w.search = (.ok resolved, n))
    (hfail : (fanEnv baseUrl resolved w k).isError = true)
    (hok : ∀ i, i ≠ k → (fanEnv baseUrl resolved w i).isError = false ∧
      jsonParse (fanEnv baseUrl resolved w i).text = some (good i)) :
    discover baseUrl query pid? w =
      ({ text := stringify (discoverDoc baseUrl resolved w), isError := false }, n + 6) ∧
    (∀ i, i ≠ k →
      getPath (discoverDoc baseUrl resolved w) (sectionPath i) = some (good i)) ∧
    getPath (discoverDoc baseUrl resolved w) (sectionPath k) =
      some (.obj [("error", .str (fanEnv baseUrl resolved w k).text)]) := by
  refine ⟨?_, ?_, ?_⟩
  · unfold discover
    rw [hres]
  · intro i hi
    rw [getPath_discoverDoc, parseResponse_ok _ _ (hok i hi).1 (hok i hi).2]
  · rw [getPath_discoverDoc, parseResponse_err _ hfail]

/-- Witness for C5: resolution via a caller-supplied project id, branch 0
failing with a transport error, the other five branches returning `{}`. -/
theorem discover_partial_failure_witness :
    (discover "https://joeapi.fly.dev" "q" (some "p")
        { search := .netError "unused",
          fan := fun i => if i = 0 then .netError "boom"
            else .response 200 (.json (.obj [])) }).1.isError = false := by
  have h := discover_partial_failure "https://joeapi.fly.dev" "q" (some "p")
    { search := .netError "unused",
      fan := fun i => if i = 0 then .netError "boom"
        else .response 200 (.json (.obj [])) }
    (some (.str "p")) 0 0 (fun _ => .obj [])
    (by rfl) (by decide) (by decide)
  rw [h.1]

theorem tryResolve_noMatch (searchText : String) (sd : Json) (d : Option Json)
    (h2 : jsonParse searchText = some sd)
    (h3 : jsGetProp (some sd) "data" = .ok d)
    (h4 : jsLength? (jsOrElse d (.arr [])) = some 0) :
    tryResolve searchText = .ok .noMatch := by
  unfold tryResolve
  rw [h2]
  simp [Bind.bind, Except.bind, h3, h4, Pure.pure, Except.pure]

/-- Claim C6: when no truthy project id is supplied, a failing `/search` call
is returned unchanged as the sole result of `discover` with exactly one
outbound call, and a successful `/search` whose parsed body has zero
candidates produces the no-match error envelope, again with exactly one
outbound call and no fan-out. -/
theorem discover_search_failure_no_fanout (baseUrl query : String)
    (pid? : Option String) (w : DiscoverWorld)
    (hfalsy : jsTruthyOpt (pid?.map Json.str) = false) :
    ((makeRequest baseUrl "GET" "/search" none [("q", some (.str query))]
        w.search).isError = true →
      discover baseUrl query pid? w =
        (makeRequest baseUrl "GET" "/search" none [("q", some (.str query))] w.search,
         1)) ∧
    (∀ (sd : Json) (d : Option Json),
      (makeRequest baseUrl "GET" "/search" none [("q", some (.str query))]
          w.search).isError = false →
      jsonParse (makeRequest baseUrl "GET" "/search" none [("q", some (.str query))]
          w.search).text = some sd →
      jsGetProp (some sd) "data" = .ok d →
      jsLength? (jsOrElse d (.arr [])) = some 0 →
      discover baseUrl query pid? w =
        ({ text := "No project found matching query: \"" ++ query ++ "\"",
           isError := true }, 1)) := by
  constructor
  · intro herr
    unfold discover resolveProjectId
    simp [hfalsy, herr]
  · intro sd d h1 h2 h3 h4
    have ht := tryResolve_noMatch _ sd d h2 h3 h4
    unfold discover resolveProjectId
    simp [hfalsy, h1, ht]

/-- Witness for C6: a refused `/search` connection is returned as is with one
call; a `/search` body with an empty `data` array produces the no-match error
with one call. -/
theorem discover_search_failure_no_fanout_witness :
    discover "https://joeapi.fly.dev" "kitchen" none
        { search := .netError "refused", fan := fun _ => .netError "x" } =
      ({ text := "Network Error: refused", isError := true }, 1) ∧
    discover "https://joeapi.fly.dev" "kitchen" none
        { search := .response 200 (.json (.obj [("data", .arr [])])),
          fan := fun _ => .netError "x" } =
      ({ text := "No project found matching query: \"kitchen\"", isError := true }, 1) := by
  constructor
  · have h := (discover_search_failure_no_fanout "https://joeapi.fly.dev" "kitchen" none
      { search := .netError "refused", fan := fun _ => .netError "x" } (by decide)).1
      (by decide)
    rw [h]
    decide
  · have h := (discover_search_failure_no_fanout "https://joeapi.fly.dev" "kitchen" none
      { search := .response 200 (.json (.obj [("data", .arr [])])),
        fan := fun _ => .netError "x" } (by decide)).2
      (.obj [("data", .arr [])]) (some (.arr []))
      (by decide) (by decide) (by rfl) (by rfl)
    rw [h]
    decide
